import Mathlib

/-!
Shallow embedding of the streaming core of the earth-sdr backend
(`apps/backend/src/propagation/propagation.service.ts` and
`apps/backend/src/streaming/streaming.controller.ts`).

Conventions of the embedding:
* JavaScript numbers used as frequencies and times are modelled by exact
  arithmetic (`ℚ` for frequencies, `ℤ` for clock values, `ℕ` for byte values
  and counters); magnitudes, which pass through `Math.pow`, are modelled by `ℝ`.
* Network effects are passed in explicitly: a fetch takes the outcome of the
  underlying `fetch` call (failure, or a status code plus body) as an argument.
* `Math.random()` is modelled by an explicit stream `rand : ℕ → ℝ` consumed in
  call order, with an index threaded through the computation.
* The process-wide header cache is passed as an explicit map
  `String → Option WaterfallHeader` and the updated map is returned.
-/

/-- `WaterfallLine` from the shared types package: a timestamp, the window
start and per-bin step, and the ordered magnitude samples. -/
structure WaterfallLine where
  timestamp : ℕ
  freqStartHz : ℚ
  freqStepHz : ℚ
  magnitudes : List ℝ

/-- One band entry of a parsed waterfall header. -/
structure WfBand where
  name : String
  startHz : ℕ
  endHz : ℕ
  startPixel : ℕ
  endPixel : ℕ
  deriving DecidableEq

/-- Cached waterfall header info from a WebSDR (`WaterfallHeader` in the
service): band list, total width in pixels, and the fetch timestamp. -/
structure WaterfallHeader where
  bands : List WfBand
  totalWidth : ℕ
  fetchedAt : ℤ
  deriving DecidableEq

/-- `MIN_WATERFALL_DATA_LENGTH` constant of the service. -/
def MIN_WATERFALL_DATA_LENGTH : ℕ := 10

/-- `HEADER_CACHE_TTL_MS` constant of the service (5 minutes). -/
def HEADER_CACHE_TTL_MS : ℤ := 5 * 60 * 1000

/-- `DB_OFFSET` constant of the service. -/
def DB_OFFSET : ℕ := 128

/-- `DB_RANGE` constant of the service. -/
def DB_RANGE : ℕ := 40

/-- The fixed number of FFT bins requested by `fetchWaterfallData`
(`const width = 512`). -/
def fetchRequestWidth : ℕ := 512

/-- `response.ok` of the Fetch API: status in the range 200..299. -/
def responseOk (status : ℕ) : Bool := decide (200 ≤ status) && decide (status < 300)

/-- Outcome of one underlying `fetch` call: a thrown error (timeout /
connection failure), or a response with a status code and a body of type `β`. -/
inductive NetOutcome (β : Type) where
  | fail : NetOutcome β
  | resp (status : ℕ) (body : β) : NetOutcome β

/-- The per-byte decoding step of `fetchWaterfallData`:
`Math.min(1.0, Math.max(0, Math.pow(10, (byte - DB_OFFSET) / DB_RANGE)))`. -/
noncomputable def decodeByte (b : ℕ) : ℝ :=
  min 1 (max 0 ((10 : ℝ) ^ (((b : ℝ) - (DB_OFFSET : ℕ)) / (DB_RANGE : ℕ))))

/-- Body processing of `fetchWaterfallData` once a successful response has
been read: reject bodies under `MIN_WATERFALL_DATA_LENGTH` bytes, otherwise
decode every byte and derive `freqStepHz` from the decoded length. -/
noncomputable def decodeWaterfallBody (now : ℕ) (minHz maxHz : ℚ)
    (data : List ℕ) : Option WaterfallLine :=
  if data.length < MIN_WATERFALL_DATA_LENGTH then none
  else
    let magnitudes := data.map decodeByte
    some ⟨now, minHz, (maxHz - minHz) / (magnitudes.length : ℚ), magnitudes⟩

/-- `fetchWaterfallData` as a function of the network outcome: a thrown
error or a non-2xx status yields `null`; otherwise the body is decoded. -/
noncomputable def fetchWaterfallData (now : ℕ) (minHz maxHz : ℚ)
    (net : NetOutcome (List ℕ)) : Option WaterfallLine :=
  match net with
  | .fail => none
  | .resp status body =>
      if responseOk status then decodeWaterfallBody now minHz maxHz body else none

/-- JavaScript truncation toward zero (`Math.trunc`, the integral part used
by the `%` operator). -/
noncomputable def jsTrunc (x : ℝ) : ℝ :=
  if 0 ≤ x then ((⌊x⌋ : ℤ) : ℝ) else ((⌈x⌉ : ℤ) : ℝ)

/-- JavaScript `x % 1`: the remainder with the sign of the dividend,
`x - Math.trunc(x)`. -/
noncomputable def jsMod1 (x : ℝ) : ℝ := x - jsTrunc x

/-- FT8 branch of the generator: if the fractional megahertz position is
within 0.002 of 0.074, add `0.3 + Math.random() * 0.4`.  The pair carries the
running value and the index of the next unused random number. -/
noncomputable def simFt8 (rand : ℕ → ℝ) (freqMHz : ℝ) (s : ℝ × ℕ) : ℝ × ℕ :=
  if |jsMod1 freqMHz - 0.074| < 0.002 then (s.1 + (0.3 + rand s.2 * 0.4), s.2 + 1)
  else s

/-- CW branch of the generator: in the lowest 50 kHz of each 1 MHz sub-band,
draw a random number and, when it exceeds 0.7, add `0.2 + Math.random() * 0.3`.
The `&&` short-circuits, so no random number is drawn outside the sub-band. -/
noncomputable def simCw (rand : ℕ → ℝ) (freqMHz : ℝ) (s : ℝ × ℕ) : ℝ × ℕ :=
  if freqMHz - ((⌊freqMHz⌋ : ℤ) : ℝ) < 0.05 then
    (if rand s.2 > 0.7 then (s.1 + (0.2 + rand (s.2 + 1) * 0.3), s.2 + 2)
     else (s.1, s.2 + 1))
  else s

/-- Rare transient-spike branch of the generator: draw a random number and,
when it exceeds 0.98, add `0.4 + Math.random() * 0.4`. -/
noncomputable def simRare (rand : ℕ → ℝ) (s : ℝ × ℕ) : ℝ × ℕ :=
  if rand s.2 > 0.98 then (s.1 + (0.4 + rand (s.2 + 1) * 0.4), s.2 + 2)
  else (s.1, s.2 + 1)

/-- One loop iteration of `generateSimulatedWaterfallLine` for bin `i`:
jitter over the noise floor, then the three signal branches, then
`Math.min(value, 1.0)`.  Returns the sample and the next random index. -/
noncomputable def simBinValue (rand : ℕ → ℝ) (noiseFloor f0 step : ℝ)
    (i k : ℕ) : ℝ × ℕ :=
  let freqMHz := (f0 + (i : ℝ) * step) / 1000000
  let s := simRare rand (simCw rand freqMHz (simFt8 rand freqMHz
    (noiseFloor + rand k * 0.05, k + 1)))
  (min s.1 1, s.2)

/-- The generator loop: `n` remaining bins starting at bin index `i` with
next random index `k`. -/
noncomputable def simBins (rand : ℕ → ℝ) (noiseFloor f0 step : ℝ) :
    ℕ → ℕ → ℕ → List ℝ
  | _i, _k, 0 => []
  | i, k, Nat.succ n =>
      (simBinValue rand noiseFloor f0 step i k).1 ::
        simBins rand noiseFloor f0 step (i + 1)
          (simBinValue rand noiseFloor f0 step i k).2 n

/-- `generateSimulatedWaterfallLine`: noise floor `0.1 + Math.random() * 0.05`
(consuming `rand 0`), then one sample per bin, `freqStepHz` the window width
over the bin count. -/
noncomputable def generateSimulatedWaterfallLine (rand : ℕ → ℝ) (now : ℕ)
    (freqStartHz freqEndHz : ℚ) (numBins : ℕ) : WaterfallLine :=
  let freqStepHz := (freqEndHz - freqStartHz) / (numBins : ℚ)
  { timestamp := now
    freqStartHz := freqStartHz
    freqStepHz := freqStepHz
    magnitudes := simBins rand (0.1 + rand 0 * 0.05) ((freqStartHz : ℚ) : ℝ)
      ((freqStepHz : ℚ) : ℝ) 0 1 numBins }

/-- JavaScript whitespace as matched by `\s` (the forms occurring in header
text): space, tab, newline, carriage return. -/
def isJsSpace (c : Char) : Bool := c == ' ' || c == '\t' || c == '\n' || c == '\r'

/-- Decimal value of a digit run (the regex groups are digit-only). -/
def digitsToNat (ds : List Char) : ℕ :=
  ds.foldl (fun a c => a * 10 + (c.toNat - 48)) 0

/-- Match a nonempty run of decimal digits at the head of the input,
returning its value and the rest. -/
def headDigits (s : List Char) : Option (ℕ × List Char) :=
  let ds := s.takeWhile Char.isDigit
  if ds.isEmpty then none else some (digitsToNat ds, s.drop ds.length)

/-- Match one expected character at the head of the input. -/
def expectChar (c : Char) : List Char → Option (List Char)
  | [] => none
  | x :: xs => if x == c then some xs else none

/-- Match an expected literal at the head of the input. -/
def expectLit : List Char → List Char → Option (List Char)
  | [], s => some s
  | c :: cs, s => (expectChar c s).bind (expectLit cs)

/-- The single-quote character (') used by the header regexes. -/
def singleQuote : Char := Char.ofNat 39

/-- The double-quote character used by the header regexes. -/
def doubleQuote : Char := Char.ofNat 34

/-- Whether a character is one of the two quote characters. -/
def isQuoteChar (c : Char) : Bool := c == doubleQuote || c == singleQuote

/-- Match `key<idx>]\s*=\s*<num>` at the head of the input, where `key`
already contains the opening bracket — one match of a regex of the shape
`band_low\[(\d+)\]\s*=\s*(\d+)`.  Returns index, value and rest. -/
def matchIdxNumAt (key : List Char) (s : List Char) :
    Option ((ℕ × ℕ) × List Char) :=
  (expectLit key s).bind fun s1 =>
  (headDigits s1).bind fun p1 =>
  (expectChar ']' p1.2).bind fun s3 =>
  (expectChar '=' (s3.dropWhile isJsSpace)).bind fun s5 =>
  (headDigits (s5.dropWhile isJsSpace)).map fun p2 =>
  ((p1.1, p2.1), p2.2)

/-- Match `key<idx>]\s*=\s*["']<chars>["']` at the head of the input — one
match of the `band_name` regex.  The captured group is a nonempty run of
characters that are not quote characters. -/
def matchIdxStrAt (key : List Char) (s : List Char) :
    Option ((ℕ × List Char) × List Char) :=
  (expectLit key s).bind fun s1 =>
  (headDigits s1).bind fun p1 =>
  (expectChar ']' p1.2).bind fun s3 =>
  (expectChar '=' (s3.dropWhile isJsSpace)).bind fun s5 =>
  (fun s6 =>
    match s6 with
    | [] => none
    | q :: s7 =>
        if isQuoteChar q then
          let content := s7.takeWhile (fun c => !isQuoteChar c)
          if content.isEmpty then none
          else
            match s7.drop content.length with
            | [] => none
            | q2 :: s8 => if isQuoteChar q2 then some ((p1.1, content), s8) else none
        else none) (s5.dropWhile isJsSpace)

/-- Match `totbw\s*=\s*(\d+)` at the head of the input. -/
def matchTotbwAt (s : List Char) : Option (ℕ × List Char) :=
  (expectLit "totbw".data s).bind fun s1 =>
  (expectChar '=' (s1.dropWhile isJsSpace)).bind fun s3 =>
  headDigits (s3.dropWhile isJsSpace)

/-- `matchAll` over the input: scan left to right, at each position try the
matcher; on success record the capture and continue after the match,
otherwise advance one character.  Fuel is the input length (every successful
match here consumes at least one character). -/
def scanAllAux {α : Type} (matchAt : List Char → Option (α × List Char)) :
    ℕ → List Char → List α
  | 0, _ => []
  | _ + 1, [] => []
  | fuel + 1, c :: rest =>
      match matchAt (c :: rest) with
      | some (a, s2) => a :: scanAllAux matchAt fuel s2
      | none => scanAllAux matchAt fuel rest

/-- All matches of a matcher over the input, left to right. -/
def scanAll {α : Type} (matchAt : List Char → Option (α × List Char))
    (s : List Char) : List α :=
  scanAllAux matchAt s.length s

/-- First match of a matcher over the input (a non-global regex `match`). -/
def scanFirstAux {α : Type} (matchAt : List Char → Option (α × List Char)) :
    ℕ → List Char → Option α
  | 0, _ => none
  | _ + 1, [] => none
  | fuel + 1, c :: rest =>
      match matchAt (c :: rest) with
      | some (a, _) => some a
      | none => scanFirstAux matchAt fuel rest

/-- First match of a matcher over the input. -/
def scanFirst {α : Type} (matchAt : List Char → Option (α × List Char))
    (s : List Char) : Option α :=
  scanFirstAux matchAt s.length s

/-- Assignment into a JavaScript object used as a record: overwrite the value
when the key exists, append otherwise. -/
def recSet {α : Type} : List (ℕ × α) → ℕ → α → List (ℕ × α)
  | [], k, v => [(k, v)]
  | (k0, v0) :: rest, k, v =>
      if k0 = k then (k0, v) :: rest else (k0, v0) :: recSet rest k v

/-- Lookup in such a record. -/
def recGet {α : Type} (m : List (ℕ × α)) (k : ℕ) : Option α :=
  (m.find? (fun p => p.1 == k)).map Prod.snd

/-- Build the record from the match list, later assignments overwriting
earlier ones. -/
def buildRec {α : Type} (ps : List (ℕ × α)) : List (ℕ × α) :=
  ps.foldl (fun m p => recSet m p.1 p.2) []

/-- Insert into an ascending list of keys. -/
def insertAsc (n : ℕ) : List ℕ → List ℕ
  | [] => [n]
  | m :: ms => if n ≤ m then n :: m :: ms else m :: insertAsc n ms

/-- Numeric object keys iterate in ascending order in JavaScript. -/
def sortAsc (l : List ℕ) : List ℕ := l.foldr insertAsc []

/-- `parseWaterfallHeader`: extract `band_name`, `band_low`, `band_high`
assignments (kHz values scaled to Hz) and the `totbw` total-width marker
(default 1024), and stamp the header with the current time.  The source wraps
the body in try/catch whose catch returns `null`; the embedded body is pure,
so the result is always `some`. -/
def parseWaterfallHeader (now : ℤ) (text : String) : Option WaterfallHeader :=
  let s := text.data
  let bandNames := buildRec (scanAll (matchIdxStrAt "band_name[".data) s)
  let bandLows := buildRec ((scanAll (matchIdxNumAt "band_low[".data) s).map
    (fun p => (p.1, p.2 * 1000)))
  let bandHighs := buildRec ((scanAll (matchIdxNumAt "band_high[".data) s).map
    (fun p => (p.1, p.2 * 1000)))
  let indices := sortAsc (bandNames.map Prod.fst)
  let bands := indices.filterMap (fun idx =>
    match recGet bandLows idx, recGet bandHighs idx with
    | some lo, some hi =>
        let nm := ((recGet bandNames idx).getD []).asString
        some { name := if nm = "" then "Band " ++ toString idx else nm
               startHz := lo, endHz := hi, startPixel := 0, endPixel := 0 }
    | _, _ => none)
  let totalWidth := (scanFirst matchTotbwAt s).getD 1024
  some { bands := bands, totalWidth := totalWidth, fetchedAt := now }

/-- Wholesale replacement of one key of the header cache
(`waterfallHeaderCache.set`). -/
def mapSet (m : String → Option WaterfallHeader) (k : String)
    (v : WaterfallHeader) : String → Option WaterfallHeader :=
  fun x => if x = k then some v else m x

/-- Result of one `fetchWaterfallHeader` call: the returned header (or
`null`), the header cache afterwards, and whether the network was hit. -/
structure HeaderFetchResult where
  header : Option WaterfallHeader
  cache : String → Option WaterfallHeader
  networkCalled : Bool

/-- The network path of `fetchWaterfallHeader` (everything after the cache
check): a thrown error or non-2xx status returns `null` without touching the
cache; an ok response is parsed and, when the parse yields a header, cached
under the station URL. -/
def fetchWaterfallHeaderNetwork (cache : String → Option WaterfallHeader)
    (now : ℤ) (stationUrl : String) (net : NetOutcome String) :
    HeaderFetchResult :=
  match net with
  | .fail => ⟨none, cache, true⟩
  | .resp status body =>
      if responseOk status then
        match parseWaterfallHeader now body with
        | some header => ⟨some header, mapSet cache stationUrl header, true⟩
        | none => ⟨none, cache, true⟩
      else ⟨none, cache, true⟩

/-- `fetchWaterfallHeader`: serve the cached header when one exists and
`now - fetchedAt < HEADER_CACHE_TTL_MS`, otherwise go to the network. -/
def fetchWaterfallHeader (cache : String → Option WaterfallHeader) (now : ℤ)
    (stationUrl : String) (net : NetOutcome String) : HeaderFetchResult :=
  match cache stationUrl with
  | some cached =>
      if now - cached.fetchedAt < HEADER_CACHE_TTL_MS then ⟨some cached, cache, false⟩
      else fetchWaterfallHeaderNetwork cache now stationUrl net
  | none => fetchWaterfallHeaderNetwork cache now stationUrl net

/-- Substring containment at the head of the input (helper for
`String.prototype.includes`). -/
def headMatches : List Char → List Char → Bool
  | _, [] => true
  | [], _ :: _ => false
  | a :: as, b :: bs => a == b && headMatches as bs

/-- `String.prototype.includes`: whether `pat` occurs contiguously in `s`. -/
def hasSubstr : List Char → List Char → Bool
  | s, pat =>
      match s with
      | [] => pat.isEmpty
      | _ :: rest => headMatches s pat || hasSubstr rest pat

/-- The two registered adapter variants. -/
inductive WebSdrAdapter where
  | kiwiSdrAdapter : WebSdrAdapter
  | standardWebSdrAdapter : WebSdrAdapter
  deriving DecidableEq

/-- `canHandle` of each adapter: Kiwi claims URLs containing `kiwisdr` or
`:8073`; Standard claims URLs containing `:8901` or `websdr`. -/
def canHandle : WebSdrAdapter → List Char → Bool
  | .kiwiSdrAdapter, url =>
      hasSubstr url "kiwisdr".data || hasSubstr url ":8073".data
  | .standardWebSdrAdapter, url =>
      hasSubstr url ":8901".data || hasSubstr url "websdr".data

/-- The adapter list of the service, in registration order:
`[new KiwiSdrAdapter(), new StandardWebSdrAdapter()]`. -/
def adapters : List WebSdrAdapter :=
  [WebSdrAdapter.kiwiSdrAdapter, WebSdrAdapter.standardWebSdrAdapter]

/-- `getAdapter`: first adapter of the list whose `canHandle` matches. -/
def getAdapter (url : List Char) : Option WebSdrAdapter :=
  adapters.find? (fun a => canHandle a url)

/-- `getWaterfallLine`: when the station record exists, try
`fetchWaterfallData` on its URL and fall back to the generator on failure;
when the lookup misses, go straight to the generator.  The boolean records
whether the real-data fetch was invoked. -/
noncomputable def getWaterfallLine (station : Option String)
    (net : NetOutcome (List ℕ)) (rand : ℕ → ℝ) (now : ℕ)
    (minHz maxHz : ℚ) (numBins : ℕ) : WaterfallLine × Bool :=
  match station with
  | some _url =>
      match fetchWaterfallData now minHz maxHz net with
      | some line => (line, true)
      | none => (generateSimulatedWaterfallLine rand now minHz maxHz numBins, true)
  | none => (generateSimulatedWaterfallLine rand now minHz maxHz numBins, false)

/-- One tick of the SSE stream in `getWaterfallStream`: with
`attemptRealData` call `getWaterfallLine` (whose failures are already folded
into the generator fallback); otherwise emit a generated line directly. -/
noncomputable def tickLine (attemptRealData : Bool) (station : Option String)
    (net : NetOutcome (List ℕ)) (rand : ℕ → ℝ) (now : ℕ)
    (freqMin freqMax : ℚ) (numBins : ℕ) : WaterfallLine × Bool :=
  if attemptRealData then getWaterfallLine station net rand now freqMin freqMax numBins
  else (generateSimulatedWaterfallLine rand now freqMin freqMax numBins, false)

/-- Result shape of `checkStationStatus`. -/
structure StationStatus where
  online : Bool
  latencyMs : Option ℕ
  error : Option String
  deriving DecidableEq

/-- Outcome of the HEAD probe of `checkStationStatus`: a thrown error with a
message, or a response with a status code. -/
inductive ProbeOutcome where
  | err (msg : String) : ProbeOutcome
  | resp (status : ℕ) : ProbeOutcome

/-- `checkStationStatus`: a missing station reports offline with a fixed
diagnostic; a thrown probe reports offline with a `null` latency and the
error message; a received response reports online exactly for 2xx or 405,
with the measured latency and no error field. -/
def checkStationStatus (station : Option String) (probe : ProbeOutcome)
    (latencyMs : ℕ) : StationStatus :=
  match station with
  | none => ⟨false, none, some "Station not found"⟩
  | some _url =>
      match probe with
      | .err msg => ⟨false, none, some msg⟩
      | .resp status => ⟨responseOk status || status == 405, some latencyMs, none⟩

/-- Leading digit run of `parseInt`, or `none` when there is none. -/
def jsParseDigits (t : List Char) : Option ℕ :=
  let ds := t.takeWhile Char.isDigit
  if ds.isEmpty then none else some (digitsToNat ds)

/-- `parseInt(s, 10)`: skip leading whitespace, take an optional sign and the
leading digit run, ignore the rest; `none` models `NaN`. -/
def jsParseInt (s : String) : Option ℤ :=
  match s.data.dropWhile isJsSpace with
  | '-' :: rest => (jsParseDigits rest).map (fun n => -(n : ℤ))
  | '+' :: rest => (jsParseDigits rest).map (fun n => (n : ℤ))
  | t => (jsParseDigits t).map (fun n => (n : ℤ))

/-- Session parameters derived by `getWaterfallStream` from the query. -/
structure StreamConfig where
  freqMin : Option ℤ
  freqMax : Option ℤ
  numBins : ℕ
  attemptRealData : Bool
  deriving DecidableEq

/-- `minHz ? parseInt(minHz, 10) : dflt` — an absent or empty (falsy)
parameter takes the default; `none` in the result models `NaN`. -/
def queryFreqParam (p : Option String) (dflt : ℤ) : Option ℤ :=
  match p with
  | none => some dflt
  | some s => if s = "" then some dflt else jsParseInt s

/-- Parameter handling of the SSE endpoint `getWaterfallStream`: default
window 7,000,000–7,300,000 Hz, 512 bins, and real data attempted unless
`useReal` is exactly the string `false`.  The endpoint constructs the session
unconditionally — there is no failure path. -/
def getWaterfallStream (minHz maxHz useReal : Option String) : StreamConfig :=
  { freqMin := queryFreqParam minHz 7000000
    freqMax := queryFreqParam maxHz 7300000
    numBins := 512
    attemptRealData := useReal != some "false" }

/-- A concrete random stream (all draws zero), used to instantiate theorems. -/
def zeroRand : ℕ → ℝ := fun _ => 0

/-- A concrete cached header used to instantiate the cache theorems. -/
def hdrEx : WaterfallHeader := ⟨[], 1024, 0⟩

/-- A concrete station URL for the cache examples. -/
def urlEx : String := "http://a.websdr.org:8901"

/-- A concrete header cache holding `hdrEx` under `urlEx`. -/
def cacheEx : String → Option WaterfallHeader :=
  fun u => if u = urlEx then some hdrEx else none

/-- The empty header cache. -/
def emptyHeaderCache : String → Option WaterfallHeader := fun _ => none

lemma decodeByte_nonneg (b : ℕ) : 0 ≤ decodeByte b :=
  le_min zero_le_one (le_max_left 0 _)

lemma decodeByte_le_one (b : ℕ) : decodeByte b ≤ 1 :=
  min_le_left 1 _

lemma decodeByte_offset : decodeByte DB_OFFSET = 1 := by
  unfold decodeByte
  have h : (((DB_OFFSET : ℕ) : ℝ) - (DB_OFFSET : ℕ)) / (DB_RANGE : ℕ) = 0 := by
    norm_num
  rw [h, Real.rpow_zero]
  norm_num

lemma simFt8_fst_nonneg (rand : ℕ → ℝ) (hr : ∀ n, 0 ≤ rand n) (freqMHz : ℝ)
    (s : ℝ × ℕ) (hs : 0 ≤ s.1) : 0 ≤ (simFt8 rand freqMHz s).1 := by
  unfold simFt8
  split_ifs
  · have := hr s.2
    simp only
    nlinarith
  · exact hs

lemma simCw_fst_nonneg (rand : ℕ → ℝ) (hr : ∀ n, 0 ≤ rand n) (freqMHz : ℝ)
    (s : ℝ × ℕ) (hs : 0 ≤ s.1) : 0 ≤ (simCw rand freqMHz s).1 := by
  unfold simCw
  split_ifs
  · have := hr (s.2 + 1)
    simp only
    nlinarith
  · exact hs
  · exact hs

lemma simRare_fst_nonneg (rand : ℕ → ℝ) (hr : ∀ n, 0 ≤ rand n)
    (s : ℝ × ℕ) (hs : 0 ≤ s.1) : 0 ≤ (simRare rand s).1 := by
  unfold simRare
  split_ifs
  · have := hr (s.2 + 1)
    simp only
    nlinarith
  · exact hs

lemma simBinValue_fst_mem_unit (rand : ℕ → ℝ) (hr : ∀ n, 0 ≤ rand n)
    (noiseFloor f0 step : ℝ) (hnf : 0 ≤ noiseFloor) (i k : ℕ) :
    0 ≤ (simBinValue rand noiseFloor f0 step i k).1 ∧
      (simBinValue rand noiseFloor f0 step i k).1 ≤ 1 := by
  have h0 : 0 ≤ noiseFloor + rand k * 0.05 := by
    have := hr k
    nlinarith
  have h1 := simRare_fst_nonneg rand hr
    (simCw rand ((f0 + (i : ℝ) * step) / 1000000)
      (simFt8 rand ((f0 + (i : ℝ) * step) / 1000000)
        (noiseFloor + rand k * 0.05, k + 1)))
    (simCw_fst_nonneg rand hr _ _
      (simFt8_fst_nonneg rand hr _ (noiseFloor + rand k * 0.05, k + 1) h0))
  unfold simBinValue
  exact ⟨le_min h1 zero_le_one, min_le_right _ _⟩

lemma simBins_length (rand : ℕ → ℝ) (noiseFloor f0 step : ℝ) :
    ∀ n i k, (simBins rand noiseFloor f0 step i k n).length = n := by
  intro n
  induction n with
  | zero => intro i k; rfl
  | succ m ih => intro i k; simp [simBins, ih]

lemma simBins_mem_unit (rand : ℕ → ℝ) (hr : ∀ n, 0 ≤ rand n)
    (noiseFloor f0 step : ℝ) (hnf : 0 ≤ noiseFloor) :
    ∀ n i k x, x ∈ simBins rand noiseFloor f0 step i k n → 0 ≤ x ∧ x ≤ 1 := by
  intro n
  induction n with
  | zero => intro i k x hx; simp [simBins] at hx
  | succ m ih =>
      intro i k x hx
      simp only [simBins, List.mem_cons] at hx
      rcases hx with h | h
      · subst h
        exact simBinValue_fst_mem_unit rand hr noiseFloor f0 step hnf i k
      · exact ih _ _ _ h

lemma generateSimulated_magnitudes_length (rand : ℕ → ℝ) (now : ℕ)
    (freqStartHz freqEndHz : ℚ) (numBins : ℕ) :
    (generateSimulatedWaterfallLine rand now freqStartHz freqEndHz
      numBins).magnitudes.length = numBins := by
  unfold generateSimulatedWaterfallLine
  exact simBins_length _ _ _ _ _ _ _

lemma generateSimulated_mem_unit (rand : ℕ → ℝ) (hr : ∀ n, 0 ≤ rand n)
    (now : ℕ) (freqStartHz freqEndHz : ℚ) (numBins : ℕ) :
    ∀ x ∈ (generateSimulatedWaterfallLine rand now freqStartHz freqEndHz
      numBins).magnitudes, 0 ≤ x ∧ x ≤ 1 := by
  intro x hx
  unfold generateSimulatedWaterfallLine at hx
  refine simBins_mem_unit rand hr _ _ _ ?_ _ _ _ _ hx
  have := hr 0
  nlinarith

lemma parseWaterfallHeader_isSome (now : ℤ) (text : String) :
    ∃ h, parseWaterfallHeader now text = some h ∧ h.fetchedAt = now := by
  refine ⟨_, rfl, rfl⟩

lemma fetchWaterfallHeaderNetwork_networkCalled
    (cache : String → Option WaterfallHeader) (now : ℤ) (stationUrl : String)
    (net : NetOutcome String) :
    (fetchWaterfallHeaderNetwork cache now stationUrl net).networkCalled = true := by
  cases net with
  | fail => rfl
  | resp status body =>
      rcases parseWaterfallHeader_isSome now body with ⟨h, hp, _⟩
      simp only [fetchWaterfallHeaderNetwork, hp]
      split_ifs <;> rfl

lemma fetchWaterfallHeaderNetwork_header_fetchedAt
    (cache : String → Option WaterfallHeader) (now : ℤ) (stationUrl : String)
    (net : NetOutcome String) (h : WaterfallHeader)
    (hh : (fetchWaterfallHeaderNetwork cache now stationUrl net).header = some h) :
    h.fetchedAt = now := by
  cases net with
  | fail => simp [fetchWaterfallHeaderNetwork] at hh
  | resp status body =>
      rcases parseWaterfallHeader_isSome now body with ⟨h0, hp, hf⟩
      simp only [fetchWaterfallHeaderNetwork, hp] at hh
      by_cases hok : responseOk status = true
      · rw [if_pos hok] at hh
        simp only at hh
        injection hh with hh
        subst hh
        exact hf
      · rw [if_neg hok] at hh
        simp at hh

lemma fetchWaterfallHeaderNetwork_none_cache
    (cache : String → Option WaterfallHeader) (now : ℤ) (stationUrl : String)
    (net : NetOutcome String)
    (hh : (fetchWaterfallHeaderNetwork cache now stationUrl net).header = none) :
    (fetchWaterfallHeaderNetwork cache now stationUrl net).cache = cache := by
  cases net with
  | fail => rfl
  | resp status body =>
      rcases parseWaterfallHeader_isSome now body with ⟨h0, hp, _⟩
      simp only [fetchWaterfallHeaderNetwork, hp] at hh ⊢
      split_ifs with hok
      · rw [if_pos hok] at hh
        simp at hh
      · rfl

/-- C1: a successful waterfall-data response whose body is under 10 bytes is
rejected (`null`); a body of at least 10 bytes yields a line whose samples
are exactly the decoded bytes, where decoding is
`clamp(10 ^ ((byte - 128) / 40), 0, 1)`; byte 128 decodes to exactly 1 and
every decoded sample lies in `[0, 1]`. -/
theorem fetchWaterfallData_decode_spec (now : ℕ) (minHz maxHz : ℚ)
    (status : ℕ) (B : List ℕ) (hok : responseOk status = true) :
    (B.length < MIN_WATERFALL_DATA_LENGTH →
      fetchWaterfallData now minHz maxHz (NetOutcome.resp status B) = none) ∧
    (MIN_WATERFALL_DATA_LENGTH ≤ B.length →
      fetchWaterfallData now minHz maxHz (NetOutcome.resp status B) =
        some ⟨now, minHz, (maxHz - minHz) / ((B.map decodeByte).length : ℚ),
          B.map decodeByte⟩) ∧
    decodeByte DB_OFFSET = 1 ∧
    (∀ b, 0 ≤ decodeByte b ∧ decodeByte b ≤ 1) := by
  refine ⟨?_, ?_, decodeByte_offset,
    fun b => ⟨decodeByte_nonneg b, decodeByte_le_one b⟩⟩
  · intro hlt
    simp [fetchWaterfallData, hok, decodeWaterfallBody, hlt]
  · intro hge
    simp [fetchWaterfallData, hok, decodeWaterfallBody, Nat.not_lt.mpr hge]

theorem fetchWaterfallData_decode_spec_witness :
    responseOk 200 = true ∧
    MIN_WATERFALL_DATA_LENGTH ≤ (List.replicate 10 128).length ∧
    fetchWaterfallData 0 0 512000 (NetOutcome.resp 200 (List.replicate 10 128)) =
      some ⟨0, 0, (512000 - 0) / (((List.replicate 10 128).map decodeByte).length : ℚ),
        (List.replicate 10 128).map decodeByte⟩ :=
  ⟨rfl, by decide,
    (fetchWaterfallData_decode_spec 0 0 512000 200 (List.replicate 10 128)
      rfl).2.1 (by decide)⟩

/-- C9: every magnitude sample the system produces lies in `[0, 1]` — both
the byte decoding of fetched station data and, for any window, bin count and
random-source outcome, the synthetic generator. -/
theorem waterfall_samples_unit_interval :
    (∀ b, 0 ≤ decodeByte b ∧ decodeByte b ≤ 1) ∧
    (∀ (rand : ℕ → ℝ), (∀ n, 0 ≤ rand n ∧ rand n < 1) →
      ∀ (now : ℕ) (f0 f1 : ℚ) (bins : ℕ),
        ∀ x ∈ (generateSimulatedWaterfallLine rand now f0 f1 bins).magnitudes,
          0 ≤ x ∧ x ≤ 1) := by
  refine ⟨fun b => ⟨decodeByte_nonneg b, decodeByte_le_one b⟩, ?_⟩
  intro rand hr now f0 f1 bins x hx
  exact generateSimulated_mem_unit rand (fun n => (hr n).1) now f0 f1 bins x hx

theorem waterfall_samples_unit_interval_witness :
    (∀ n, 0 ≤ zeroRand n ∧ zeroRand n < 1) ∧
    (∀ x ∈ (generateSimulatedWaterfallLine zeroRand 0 7000000 7300000
      512).magnitudes, 0 ≤ x ∧ x ≤ 1) :=
  ⟨fun _n => ⟨le_refl 0, zero_lt_one⟩,
    waterfall_samples_unit_interval.2 zeroRand
      (fun _n => ⟨le_refl 0, zero_lt_one⟩) 0 7000000 7300000 512⟩

/-- C2 counterexample: `fetchWaterfallData` requests `fetchRequestWidth = 512`
bins, but a successful 10-byte response produces a line with 10 samples, not
512 — a fetched line's sample count is the response length, not the
requested bin count. -/
theorem fetchWaterfallData_bins_counterexample :
    (fetchWaterfallData 0 7000000 7300000
      (NetOutcome.resp 200 (List.replicate 10 128))).map
        (fun l => l.magnitudes.length) = some 10 ∧
    fetchRequestWidth = 512 ∧ (10 : ℕ) ≠ fetchRequestWidth :=
  ⟨rfl, rfl, by decide⟩

/-- C2 amended: a generated line has exactly the requested number of samples
and `freqStepHz = (maxHz - minHz) / n`; a fetched line has one sample per
response byte and `freqStepHz = (maxHz - minHz) / samples.length` — the
requested bin count (512) is not enforced on the response. -/
theorem waterfallLine_dimensions (rand : ℕ → ℝ) (now : ℕ) (minHz maxHz : ℚ)
    (bins status : ℕ) (B : List ℕ) :
    (minHz < maxHz → 0 < bins →
      (generateSimulatedWaterfallLine rand now minHz maxHz
        bins).magnitudes.length = bins ∧
      (generateSimulatedWaterfallLine rand now minHz maxHz bins).freqStepHz =
        (maxHz - minHz) / (bins : ℚ)) ∧
    (responseOk status = true → MIN_WATERFALL_DATA_LENGTH ≤ B.length →
      (fetchWaterfallData now minHz maxHz (NetOutcome.resp status B)).map
        (fun l => (l.magnitudes.length, l.freqStepHz)) =
        some (B.length, (maxHz - minHz) / (B.length : ℚ))) := by
  constructor
  · intro _ _
    exact ⟨generateSimulated_magnitudes_length rand now minHz maxHz bins, rfl⟩
  · intro hok hge
    simp [fetchWaterfallData, hok, decodeWaterfallBody, Nat.not_lt.mpr hge]

theorem waterfallLine_dimensions_witness :
    ((7000000 : ℚ) < 7300000 ∧ 0 < 512 ∧
      (generateSimulatedWaterfallLine zeroRand 0 7000000 7300000
        512).magnitudes.length = 512 ∧
      (generateSimulatedWaterfallLine zeroRand 0 7000000 7300000
        512).freqStepHz = ((7300000 : ℚ) - 7000000) / (512 : ℚ)) ∧
    (responseOk 200 = true ∧
      MIN_WATERFALL_DATA_LENGTH ≤ (List.replicate 12 0).length ∧
      (fetchWaterfallData 0 7000000 7300000
        (NetOutcome.resp 200 (List.replicate 12 0))).map
          (fun l => (l.magnitudes.length, l.freqStepHz)) =
        some ((List.replicate 12 0).length,
          ((7300000 : ℚ) - 7000000) / (((List.replicate 12 0).length : ℕ) : ℚ))) := by
  have h1 := (waterfallLine_dimensions zeroRand 0 7000000 7300000 512 200
    (List.replicate 12 0)).1 (by norm_num) (by norm_num)
  have h2 := (waterfallLine_dimensions zeroRand 0 7000000 7300000 512 200
    (List.replicate 12 0)).2 rfl (by decide)
  exact ⟨⟨by norm_num, by norm_num, h1.1, h1.2⟩, ⟨rfl, by decide, h2⟩⟩

/-- C10: with all three query parameters absent the stream session uses the
default window 7,000,000–7,300,000 Hz with 512 bins and attempts real data;
real data is disabled exactly when `useReal` is the string `false`. -/
theorem getWaterfallStream_defaults :
    getWaterfallStream none none none =
      ⟨some 7000000, some 7300000, 512, true⟩ ∧
    (∀ minHz maxHz useReal,
      (getWaterfallStream minHz maxHz useReal).attemptRealData = false ↔
        useReal = some "false") := by
  refine ⟨rfl, ?_⟩
  intro minHz maxHz useReal
  show (useReal != some "false") = false ↔ useReal = some "false"
  cases useReal with
  | none => simp
  | some s => simp

theorem getWaterfallStream_defaults_witness :
    (getWaterfallStream none none (some "false")).attemptRealData = false :=
  (getWaterfallStream_defaults.2 none none (some "false")).mpr rfl

/-- C3: `fetchWaterfallHeader` serves a cached header exactly when the entry
is younger than the 5-minute TTL (no network call, cache untouched); a stale
entry is never served — the network is hit and any returned header is the
freshly fetched one; and after one successful fetch, a second call within the
TTL window makes no network call and returns the same header. -/
theorem fetchWaterfallHeader_ttl (cache : String → Option WaterfallHeader)
    (now t1 : ℤ) (url : String) (net net1 : NetOutcome String)
    (status : ℕ) (body : String) :
    (∀ h, cache url = some h → now - h.fetchedAt < HEADER_CACHE_TTL_MS →
      fetchWaterfallHeader cache now url net = ⟨some h, cache, false⟩) ∧
    (∀ h, cache url = some h → HEADER_CACHE_TTL_MS ≤ now - h.fetchedAt →
      (fetchWaterfallHeader cache now url net).networkCalled = true ∧
      (fetchWaterfallHeader cache now url net).header ≠ some h) ∧
    (cache url = none → responseOk status = true →
      t1 - now < HEADER_CACHE_TTL_MS →
      (fetchWaterfallHeader
          (fetchWaterfallHeader cache now url (NetOutcome.resp status body)).cache
          t1 url net1).networkCalled = false ∧
      (fetchWaterfallHeader
          (fetchWaterfallHeader cache now url (NetOutcome.resp status body)).cache
          t1 url net1).header =
        (fetchWaterfallHeader cache now url (NetOutcome.resp status body)).header) := by
  refine ⟨?_, ?_, ?_⟩
  · intro h hc hfresh
    simp only [fetchWaterfallHeader, hc]
    rw [if_pos hfresh]
  · intro h hc hstale
    have hnot : ¬(now - h.fetchedAt < HEADER_CACHE_TTL_MS) := not_lt.mpr hstale
    simp only [fetchWaterfallHeader, hc]
    rw [if_neg hnot]
    refine ⟨fetchWaterfallHeaderNetwork_networkCalled _ _ _ _, ?_⟩
    intro habs
    have hf := fetchWaterfallHeaderNetwork_header_fetchedAt _ _ _ _ h habs
    rw [hf] at hstale
    simp [HEADER_CACHE_TTL_MS] at hstale
  · intro hc hok hfresh
    rcases parseWaterfallHeader_isSome now body with ⟨hd, hp, hfa⟩
    have hout : fetchWaterfallHeader cache now url (NetOutcome.resp status body) =
        ⟨some hd, mapSet cache url hd, true⟩ := by
      simp only [fetchWaterfallHeader, hc, fetchWaterfallHeaderNetwork, hp]
      rw [if_pos hok]
    rw [hout]
    have hc2 : mapSet cache url hd url = some hd := by simp [mapSet]
    simp only [fetchWaterfallHeader, hc2]
    rw [hfa]
    rw [if_pos hfresh]
    exact ⟨rfl, rfl⟩

theorem fetchWaterfallHeader_ttl_witness :
    cacheEx urlEx = some hdrEx ∧
    (1000 : ℤ) - hdrEx.fetchedAt < HEADER_CACHE_TTL_MS ∧
    fetchWaterfallHeader cacheEx 1000 urlEx NetOutcome.fail =
      ⟨some hdrEx, cacheEx, false⟩ :=
  ⟨rfl, by decide,
    (fetchWaterfallHeader_ttl cacheEx 1000 0 urlEx NetOutcome.fail
      NetOutcome.fail 0 "").1 hdrEx rfl (by decide)⟩

/-- C4: whenever `fetchWaterfallHeader` returns `null` the header cache is
left unchanged; in particular a thrown fetch (timeout / connection failure)
and a non-2xx status both fail without caching anything, so the next call
fetches again. -/
theorem fetchWaterfallHeader_no_negative_cache
    (cache : String → Option WaterfallHeader) (now : ℤ) (url : String)
    (net : NetOutcome String) (status : ℕ) (body : String) :
    ((fetchWaterfallHeader cache now url net).header = none →
      (fetchWaterfallHeader cache now url net).cache = cache) ∧
    (cache url = none → net = NetOutcome.fail →
      fetchWaterfallHeader cache now url net = ⟨none, cache, true⟩) ∧
    (cache url = none → responseOk status = false →
      fetchWaterfallHeader cache now url (NetOutcome.resp status body) =
        ⟨none, cache, true⟩) := by
  refine ⟨?_, ?_, ?_⟩
  · cases hcu : cache url with
    | none =>
        simp only [fetchWaterfallHeader, hcu]
        exact fetchWaterfallHeaderNetwork_none_cache cache now url net
    | some cached =>
        simp only [fetchWaterfallHeader, hcu]
        split_ifs with hfresh
        · intro habs
          simp at habs
        · exact fetchWaterfallHeaderNetwork_none_cache cache now url net
  · intro hcu hnet
    subst hnet
    simp only [fetchWaterfallHeader, hcu]
    rfl
  · intro hcu hbad
    rcases parseWaterfallHeader_isSome now body with ⟨hd, hp, _⟩
    simp only [fetchWaterfallHeader, hcu, fetchWaterfallHeaderNetwork, hp]
    rw [if_neg (by simp [hbad])]

theorem fetchWaterfallHeader_no_negative_cache_witness :
    emptyHeaderCache urlEx = none ∧
    fetchWaterfallHeader emptyHeaderCache 0 urlEx NetOutcome.fail =
      ⟨none, emptyHeaderCache, true⟩ ∧
    responseOk 503 = false ∧
    fetchWaterfallHeader emptyHeaderCache 0 urlEx (NetOutcome.resp 503 "x") =
      ⟨none, emptyHeaderCache, true⟩ :=
  ⟨rfl,
    (fetchWaterfallHeader_no_negative_cache emptyHeaderCache 0 urlEx
      NetOutcome.fail 503 "x").2.1 rfl rfl,
    rfl,
    (fetchWaterfallHeader_no_negative_cache emptyHeaderCache 0 urlEx
      NetOutcome.fail 503 "x").2.2 rfl rfl⟩

/-- C5: with `useReal` false a tick never invokes the real-data fetcher and
emits the generated line; with `useReal` true and a failing real fetch the
emitted line is `generateSimulatedWaterfallLine` on the same window and bin
count — the tick is a total function, so no exception escapes it. -/
theorem streamTick_fallback (attemptRealData : Bool) (station : Option String)
    (net : NetOutcome (List ℕ)) (rand : ℕ → ℝ) (now : ℕ)
    (freqMin freqMax : ℚ) (numBins : ℕ) :
    (attemptRealData = false →
      tickLine attemptRealData station net rand now freqMin freqMax numBins =
        (generateSimulatedWaterfallLine rand now freqMin freqMax numBins,
          false)) ∧
    (attemptRealData = true →
      fetchWaterfallData now freqMin freqMax net = none →
      (tickLine attemptRealData station net rand now freqMin freqMax
        numBins).1 =
        generateSimulatedWaterfallLine rand now freqMin freqMax numBins) := by
  constructor
  · intro h
    subst h
    rfl
  · intro h hf
    subst h
    cases station with
    | none => rfl
    | some u => simp [tickLine, getWaterfallLine, hf]

theorem streamTick_fallback_witness :
    ((false = false) ∧
      tickLine false (some "u") NetOutcome.fail zeroRand 0 7000000 7300000
        512 =
        (generateSimulatedWaterfallLine zeroRand 0 7000000 7300000 512,
          false)) ∧
    ((true = true) ∧
      fetchWaterfallData 0 7000000 7300000 NetOutcome.fail = none ∧
      (tickLine true (some "u") NetOutcome.fail zeroRand 0 7000000 7300000
        512).1 =
        generateSimulatedWaterfallLine zeroRand 0 7000000 7300000 512) :=
  ⟨⟨rfl, (streamTick_fallback false (some "u") NetOutcome.fail zeroRand 0
      7000000 7300000 512).1 rfl⟩,
   ⟨rfl, rfl, (streamTick_fallback true (some "u") NetOutcome.fail zeroRand 0
      7000000 7300000 512).2 rfl rfl⟩⟩

/-- C6 counterexample: opening the waterfall stream for a stationId with no
station record does not fail — the session runs and its tick emits a
(synthetic) line, so StationNotFound does not surface at open time. -/
theorem sessionOpen_missing_station_counterexample :
    (tickLine true none NetOutcome.fail zeroRand 0 7000000 7300000 512).1 =
      generateSimulatedWaterfallLine zeroRand 0 7000000 7300000 512 ∧
    (tickLine true none NetOutcome.fail zeroRand 0 7000000 7300000
      512).1.magnitudes.length = 512 ∧
    (getWaterfallStream none none none).attemptRealData = true := by
  refine ⟨rfl, ?_, rfl⟩
  show (generateSimulatedWaterfallLine zeroRand 0 7000000 7300000
    512).magnitudes.length = 512
  exact generateSimulated_magnitudes_length zeroRand 0 7000000 7300000 512

/-- C6 amended: a session opened for a stationId with no station record
still starts; every tick falls back to the synthetic generator and the
real-data fetcher is never invoked — no StationNotFound failure surfaces at
open time on the stream endpoint. -/
theorem sessionTick_missing_station (attemptRealData : Bool)
    (net : NetOutcome (List ℕ)) (rand : ℕ → ℝ) (now : ℕ)
    (freqMin freqMax : ℚ) (numBins : ℕ) :
    tickLine attemptRealData none net rand now freqMin freqMax numBins =
      (generateSimulatedWaterfallLine rand now freqMin freqMax numBins,
        false) := by
  cases attemptRealData <;> rfl

/-- C7 counterexample: for an existing station a probe answered with HTTP
500 yields `online = false` with the measured latency (not `none`) and no
error string — refuting the claim that any non-2xx/405 status reports
`latencyMs = none` with a diagnostic. -/
theorem checkStationStatus_latency_counterexample :
    checkStationStatus (some urlEx) (ProbeOutcome.resp 500) 123 =
      ⟨false, some 123, none⟩ ∧ (some 123 : Option ℕ) ≠ none :=
  ⟨rfl, by decide⟩

/-- C7 amended: `checkStationStatus` reports `online = true` exactly for a
2xx or 405 probe status; a thrown probe (timeout / network error) reports
offline with `latencyMs = none` and the error message; a received non-2xx,
non-405 response reports offline but with the measured latency and no error
string; a missing station reports offline with a fixed diagnostic.  The
operation is a total function — it never throws. -/
theorem checkStationStatus_spec (url msg : String) (status latencyMs : ℕ) :
    checkStationStatus (some url) (ProbeOutcome.err msg) latencyMs =
      ⟨false, none, some msg⟩ ∧
    checkStationStatus (some url) (ProbeOutcome.resp status) latencyMs =
      ⟨responseOk status || status == 405, some latencyMs, none⟩ ∧
    ((checkStationStatus (some url) (ProbeOutcome.resp status)
        latencyMs).online = true ↔
      (responseOk status = true ∨ status = 405)) ∧
    checkStationStatus none (ProbeOutcome.err msg) latencyMs =
      ⟨false, none, some "Station not found"⟩ := by
  refine ⟨rfl, rfl, ?_, rfl⟩
  show (responseOk status || status == 405) = true ↔
    (responseOk status = true ∨ status = 405)
  simp [Bool.or_eq_true]

theorem checkStationStatus_spec_witness :
    checkStationStatus (some urlEx) (ProbeOutcome.resp 405) 50 =
      ⟨responseOk 405 || 405 == 405, some 50, none⟩ ∧
    checkStationStatus (some urlEx) (ProbeOutcome.err "timeout") 50 =
      ⟨false, none, some "timeout"⟩ :=
  ⟨(checkStationStatus_spec urlEx "timeout" 405 50).2.1,
   (checkStationStatus_spec urlEx "timeout" 405 50).1⟩

/-- C8: `getAdapter` scans the fixed adapter list in registration order —
Kiwi first, then Standard — returning the first whose `canHandle` matches
and `none` when neither matches; the URL `http://x.kiwisdr.example:80` is
claimed by the Kiwi adapter. -/
theorem getAdapter_first_match (url : List Char) :
    (canHandle WebSdrAdapter.kiwiSdrAdapter url = true →
      getAdapter url = some WebSdrAdapter.kiwiSdrAdapter) ∧
    (canHandle WebSdrAdapter.kiwiSdrAdapter url = false →
      canHandle WebSdrAdapter.standardWebSdrAdapter url = true →
      getAdapter url = some WebSdrAdapter.standardWebSdrAdapter) ∧
    (canHandle WebSdrAdapter.kiwiSdrAdapter url = false →
      canHandle WebSdrAdapter.standardWebSdrAdapter url = false →
      getAdapter url = none) ∧
    getAdapter "http://x.kiwisdr.example:80".data =
      some WebSdrAdapter.kiwiSdrAdapter := by
  refine ⟨?_, ?_, ?_, by decide⟩
  · intro h
    simp [getAdapter, adapters, List.find?, h]
  · intro h1 h2
    simp [getAdapter, adapters, List.find?, h1, h2]
  · intro h1 h2
    simp [getAdapter, adapters, List.find?, h1, h2]

theorem getAdapter_first_match_witness :
    canHandle WebSdrAdapter.kiwiSdrAdapter
      "http://x.kiwisdr.example:80".data = true ∧
    getAdapter "http://x.kiwisdr.example:80".data =
      some WebSdrAdapter.kiwiSdrAdapter :=
  ⟨by decide,
    (getAdapter_first_match "http://x.kiwisdr.example:80".data).1 (by decide)⟩
